import Mathlib

/-!
Verification of the billing backend's core components against its
specification. The definitions below are shallow embeddings of the Python
source: `app/services/webhook_service.py`, `app/core/webhook_security.py`,
`app/core/redis_client.py`, `app/workers/queue_processor.py`,
`app/core/webhook_client.py`, `app/services/payment_service.py` and the
models/repositories they call. Machine-level concerns (event loop, ORM
sessions, Redis wire protocol) are modelled as explicit state; datetimes are
integer day counts; library primitives not part of the repository
(HMAC-SHA256, Python's builtin `hash`, `json.loads`) are parameters of the
functions that call them.
-/

set_option autoImplicit false

/-! ## Subscription-service data model (`app/models/plan.py`, `subscription.py`,
`subscription_event.py`) -/

/-- `Plan` row: `billing_cycle ∈ {monthly, yearly}`; `is_trial_plan` is the
`features.trial is True` property of `app/models/plan.py`. -/
structure Plan where
  id : Nat
  name : String
  billing_cycle : String
  is_trial_plan : Bool
deriving Repr, DecidableEq

/-- `Subscription` row with its loaded `plan` relationship.  `end_date` is a
day count (the code stores a timezone-aware UTC datetime and only ever adds
whole days to it). -/
structure Subscription where
  id : Nat
  status : String
  plan : Plan
  end_date : Int
deriving Repr, DecidableEq

/-- One `SubscriptionEvent` row as `webhook_service.py` builds it
(`session.add(SubscriptionEvent(**event_data))`).  `status_change` is the
`event_metadata["status_change"]` entry when the branch sets one. -/
structure SubscriptionEvent where
  subscription_id : Nat
  event_type : String
  old_plan_id : Option Nat
  new_plan_id : Option Nat
  status_change : Option String
deriving Repr, DecidableEq

/-- `Subscription.extend_subscription` (`app/models/subscription.py`): yearly
adds 365 days, otherwise 30 * months days. -/
def extend_subscription (sub : Subscription) (months : Int) : Subscription :=
  if sub.plan.billing_cycle = "yearly" then
    { sub with end_date := sub.end_date + 365 }
  else
    { sub with end_date := sub.end_date + 30 * months }

/-- `WebhookService._handle_payment_success`.  `renewal` is the result of
`plan_repo.get_renewal_plan(subscription.plan.id)` (consulted only in the
trial branch).  Returns the updated subscription row and the appended
`SubscriptionEvent` rows. -/
def handle_payment_success (sub : Subscription) (renewal : Option Plan) :
    Subscription × List SubscriptionEvent :=
  if sub.status = "pending" then
    let new_status := if sub.plan.is_trial_plan then ("trial") else ("active")
    ({ sub with status := new_status },
     [{ subscription_id := sub.id, event_type := "payment_success",
        old_plan_id := none, new_plan_id := none,
        status_change := some ("pending -> " ++ new_status) }])
  else if sub.status = "past_due" then
    ({ sub with status := "active" },
     [{ subscription_id := sub.id, event_type := "payment_success",
        old_plan_id := none, new_plan_id := none,
        status_change := some ("past_due -> active") }])
  else if sub.status = "active" ∨ sub.status = "trial" then
    -- renewal payment: extend first (the code calls extend_subscription()
    -- for yearly and extend_subscription(1) otherwise; both add 365 days on
    -- a yearly plan and 30 days otherwise)
    let extended :=
      if sub.plan.billing_cycle = "yearly" then extend_subscription sub 1
      else extend_subscription sub 1
    if sub.status = "active" then
      (extended,
       [{ subscription_id := sub.id, event_type := "renewed",
          old_plan_id := none, new_plan_id := none,
          status_change := some ("active -> active (renewed)") }])
    else
      match renewal with
      | some rp =>
        ({ extended with plan := rp, status := "active" },
         [{ subscription_id := sub.id, event_type := "renewed",
            old_plan_id := some sub.plan.id, new_plan_id := some rp.id,
            status_change := some ("trial -> active (" ++ rp.name ++ ")") }])
      | none =>
        (extended,
         [{ subscription_id := sub.id, event_type := "renewed",
            old_plan_id := none, new_plan_id := none,
            status_change := some ("trial -> trial (extended)") }])
  else
    -- unexpected subscription status: log a warning, change nothing,
    -- append no event
    (sub, [])

/-- `WebhookService._handle_payment_failure`. -/
def handle_payment_failure (sub : Subscription) :
    Subscription × List SubscriptionEvent :=
  if sub.status = "pending" then
    (sub,
     [{ subscription_id := sub.id, event_type := "payment_failed",
        old_plan_id := none, new_plan_id := none, status_change := none }])
  else if sub.status = "active" ∨ sub.status = "trial" then
    ({ sub with status := "revoked" },
     [{ subscription_id := sub.id, event_type := "payment_failed",
        old_plan_id := none, new_plan_id := none,
        status_change := some (sub.status ++ " -> revoked") }])
  else
    (sub,
     [{ subscription_id := sub.id, event_type := "payment_failed",
        old_plan_id := none, new_plan_id := none, status_change := none }])

/-- Dispatch of `WebhookService.process_webhook_event` on the payment status:
`"success"` and `"failed"` run the handlers, anything else changes nothing. -/
def webhook_transition (sub : Subscription) (renewal : Option Plan)
    (ev : String) : Subscription × List SubscriptionEvent :=
  if ev = "success" then handle_payment_success sub renewal
  else if ev = "failed" then handle_payment_failure sub
  else (sub, [])

/-! ## The specification's transition table (§4.10 of the spec), written from
the spec's words, to be compared with `webhook_transition`. -/

/-- "Cycle extension: yearly adds 365 days; monthly adds 30 days." -/
def spec_cycle_days (p : Plan) : Int :=
  if p.billing_cycle = "yearly" then 365 else 30

/-- The transition table of the spec (§4.10), as the claim states it:
pending+success → trial/active by `plan.trial`; past_due+success → active;
active+success → active with one cycle extension; trial+success → active with
the renewal plan when configured (else stays trial), with the same
extension; pending+failed → pending; active/trial+failed → revoked. -/
def spec_transition (sub : Subscription) (renewal : Option Plan)
    (ev : String) : Subscription :=
  if sub.status = "pending" ∧ ev = "success" then
    { sub with status := if sub.plan.is_trial_plan then ("trial") else ("active") }
  else if sub.status = "past_due" ∧ ev = "success" then
    { sub with status := "active" }
  else if sub.status = "active" ∧ ev = "success" then
    { sub with end_date := sub.end_date + spec_cycle_days sub.plan }
  else if sub.status = "trial" ∧ ev = "success" then
    match renewal with
    | some rp =>
      { sub with status := "active", plan := rp,
                 end_date := sub.end_date + spec_cycle_days sub.plan }
    | none =>
      { sub with end_date := sub.end_date + spec_cycle_days sub.plan }
  else if sub.status = "pending" ∧ ev = "failed" then sub
  else if (sub.status = "active" ∨ sub.status = "trial") ∧ ev = "failed" then
    { sub with status := "revoked" }
  else sub

/-- The (prior status, event status) pairs the claim enumerates. -/
def claim_pairs : List (String × String) :=
  [("pending", "success"), ("past_due", "success"), ("active", "success"),
   ("trial", "success"), ("pending", "failed"), ("active", "failed"),
   ("trial", "failed")]

/-- C1: for every verified payment webhook event applied to a subscription
whose (status, event) pair is one the claim enumerates, the code's transition
(`webhook_transition`, from `_handle_payment_success` /
`_handle_payment_failure`) produces exactly the spec's transition table
(`spec_transition`), and appends exactly one `SubscriptionEvent` row. -/
theorem c1_subscription_transition_table (sub : Subscription)
    (renewal : Option Plan) (ev : String)
    (h : (sub.status, ev) ∈ claim_pairs) :
    (webhook_transition sub renewal ev).1 = spec_transition sub renewal ev ∧
    (webhook_transition sub renewal ev).2.length = 1 := by
  simp only [claim_pairs, List.mem_cons, List.not_mem_nil, or_false,
    Prod.mk.injEq] at h
  rcases h with ⟨h1, h2⟩ | ⟨h1, h2⟩ | ⟨h1, h2⟩ | ⟨h1, h2⟩ | ⟨h1, h2⟩ |
    ⟨h1, h2⟩ | ⟨h1, h2⟩ <;>
    simp only [webhook_transition, spec_transition, handle_payment_success,
      handle_payment_failure, extend_subscription, spec_cycle_days, h1, h2,
      if_true, if_false, reduceCtorEq, String.reduceEq, and_true, and_false,
      true_and, false_and, and_self, or_true, true_or, or_false, false_or,
      ite_true, ite_false, if_pos, List.length_cons, List.length_nil] <;>
    (try refine ⟨?_, ?_⟩) <;> (try split) <;> (try split) <;> simp_all

/-- A concrete pending subscription on a trial plan, for the witness. -/
def plan0 : Plan :=
  { id := 1, name := "Trial", billing_cycle := "monthly", is_trial_plan := true }

/-- A concrete pending subscription, for the witness. -/
def sub0 : Subscription :=
  { id := 7, status := "pending", plan := plan0, end_date := 100 }

/-- Witness for C1 at a concrete input: a pending subscription on a trial plan
receiving a success event. -/
theorem c1_transition_witness :
    (webhook_transition sub0 none ("success")).1 =
      spec_transition sub0 none ("success") ∧
    (webhook_transition sub0 none ("success")).2.length = 1 :=
  c1_subscription_transition_table sub0 none ("success") (by decide)

/-! ## HMAC webhook signing and verification
(`payment-service/app/core/webhook_security.py`).  `hmac.new(secret, msg,
sha256).hexdigest()` is a library primitive outside the repository, so the
signer and verifier are parametrised over that MAC function `mac : secret →
message → hex digest`; the repository's own structure — the `"sha256="`
prefix, the `timestamp.payload` signing string, the tolerance window, the
constant-time equality (functionally string equality) — is embedded
exactly. -/

/-- Digit accumulator for `parse_int_string`. -/
def digitsToNat (l : List Char) : Nat :=
  l.foldl (fun n c => 10 * n + (c.toNat - 48)) 0

/-- `int(timestamp_header)` of the Python standard library, restricted to the
shapes the service ever sends (an optional sign followed by digits):
`none` models the `ValueError` branch. -/
def parse_int_string (s : String) : Option Int :=
  match s.data with
  | [] => none
  | '-' :: rest =>
    if rest ≠ [] ∧ rest.all Char.isDigit then some (-(digitsToNat rest : Int))
    else none
  | l =>
    if l.all Char.isDigit then some ((digitsToNat l : Int)) else none

/-- Result of `WebhookSignatureVerifier.verify_signature`: `ok` for `return
True`, `err code detail` for the raised `HTTPException`. -/
inductive VerifyResult where
  | ok
  | err (code : Nat) (detail : String)
deriving Repr, DecidableEq

/-- `WebhookSignatureVerifier.generate_signature`: signs `timestamp.payload`
and prepends `sha256=`. -/
def generate_signature (mac : String → String → String)
    (payload timestamp secret : String) : String :=
  "sha256=" ++ mac secret (timestamp ++ "." ++ payload)

/-- `WebhookSignatureVerifier.verify_signature`: parse the timestamp header
(400 on failure), enforce the tolerance window in both directions (400),
recompute the signature and compare (401 on mismatch). -/
def verify_signature (mac : String → String → String)
    (payload signature_header timestamp_header secret : String)
    (tolerance_seconds now : Int) : VerifyResult :=
  match parse_int_string timestamp_header with
  | none => .err 400 ("Invalid timestamp format")
  | some t =>
    let age := now - t
    if tolerance_seconds < age then .err 400 ("Webhook timestamp too old")
    else if age < -tolerance_seconds then
      .err 400 ("Webhook timestamp too far in future")
    else if signature_header =
        generate_signature mac payload timestamp_header secret then .ok
    else .err 401 ("Invalid webhook signature")

/-- Left cancellation for string append, used to compare signatures that
share the `"sha256="` prefix. -/
theorem string_append_left_cancel {s a b : String} (h : s ++ a = s ++ b) :
    a = b := by
  have hd := congrArg String.data h
  simp only [String.data_append] at hd
  exact String.ext (List.append_cancel_left hd)

/-- C2: signer/verifier round trip and tolerance window.  For every MAC
function, payload, integer timestamp string, secret and clock: (a)
verification of the signer's own signature succeeds whenever
`|now − T| ≤ tolerance`; (b) when `now − T` exceeds the tolerance the result
is a 400 error, in either direction; (c) scenario S1: with `T =
"1700000000"` and tolerance 300, `now = 1700000060` succeeds and `now =
1700001000` fails with 400; (d) any signature other than the recomputed one
is rejected; (e) a tampered payload whose MAC differs from the original's is
rejected. -/
theorem c2_signature_roundtrip_tolerance (mac : String → String → String)
    (payload payload2 sig timestamp secret : String) (tol now t : Int) :
    (parse_int_string timestamp = some t → -tol ≤ now - t → now - t ≤ tol →
      verify_signature mac payload
        (generate_signature mac payload timestamp secret)
        timestamp secret tol now = .ok) ∧
    (parse_int_string timestamp = some t → tol < now - t →
      verify_signature mac payload sig timestamp secret tol now =
        .err 400 ("Webhook timestamp too old")) ∧
    (parse_int_string timestamp = some t → 0 ≤ tol → now - t < -tol →
      verify_signature mac payload sig timestamp secret tol now =
        .err 400 ("Webhook timestamp too far in future")) ∧
    (verify_signature mac payload
        (generate_signature mac payload ("1700000000") secret)
        ("1700000000") secret 300 1700000060 = .ok) ∧
    (verify_signature mac payload
        (generate_signature mac payload ("1700000000") secret)
        ("1700000000") secret 300 1700001000 =
      .err 400 ("Webhook timestamp too old")) ∧
    (sig ≠ generate_signature mac payload timestamp secret →
      verify_signature mac payload sig timestamp secret tol now ≠ .ok) ∧
    (mac secret (timestamp ++ "." ++ payload2) ≠
        mac secret (timestamp ++ "." ++ payload) →
      verify_signature mac payload2
        (generate_signature mac payload timestamp secret)
        timestamp secret tol now ≠ .ok) := by
  have ht0 : parse_int_string ("1700000000") = some 1700000000 := by decide
  refine ⟨?_, ?_, ?_, ?_, ?_, ?_, ?_⟩
  · intro hp h1 h2
    simp only [verify_signature, hp]
    rw [if_neg (by omega), if_neg (by omega)]
    simp
  · intro hp h1
    simp only [verify_signature, hp]
    rw [if_pos (by omega)]
  · intro hp h0 h1
    simp only [verify_signature, hp]
    rw [if_neg (by omega), if_pos (by omega)]
  · simp only [verify_signature, ht0]
    norm_num
  · simp only [verify_signature, ht0]
    norm_num
  · intro hs
    simp only [verify_signature]
    match parse_int_string timestamp with
    | none => simp
    | some u =>
      simp only
      split
      · simp
      · split
        · simp
        · simp [hs]
  · intro hm
    simp only [verify_signature, generate_signature]
    match parse_int_string timestamp with
    | none => simp
    | some u =>
      simp only
      split
      · simp
      · split
        · simp
        · rw [if_neg (fun h => hm (string_append_left_cancel h).symm)]
          simp

/-! ## Atomic usage meter (`RedisClient.atomic_usage_check`,
`subscription-service/app/core/redis_client.py`).  The Lua script reads the
hash fields `count` and `reset_at` at the key (absent fields are `nil`,
modelled `none`), resets the count when a stored `reset_at` compares `≤` the
caller's `current_time` (a Lua string comparison between the stored string and
`ARGV[4]`; `UsageKeyState.reset_at` keeps the stored string), denies without
writing when `count + delta > limit`, and otherwise writes the new count and
`reset_at` back under a 24-hour TTL (86400 s).  Its only caller,
`UsageService.use_feature`, passes `delta` from a `UsageRequest` whose field
is declared `Field(default=1, ge=1)`, so every invocation has `delta ≥ 1`. -/

/-- Lua's string comparison (byte-wise lexicographic), on the character
lists of the two strings. -/
def lua_le_chars : List Char → List Char → Bool
  | [], _ => true
  | _ :: _, [] => false
  | x :: xs, y :: ys =>
    if x < y then true
    else if y < x then false
    else lua_le_chars xs ys

/-- `stored_reset <= current_time` of the Lua script: both operands are
strings (the stored hash field and `ARGV[4]`), so Lua compares them
lexicographically byte by byte. -/
def lua_str_le (a b : String) : Bool :=
  lua_le_chars a.data b.data

/-- The two hash fields stored at `usage:<user_id>:<feature_name>`. -/
structure UsageKeyState where
  count : Option Int
  reset_at : Option String
deriving Repr, DecidableEq

/-- The `{success, current_usage, limit}` triple `atomic_usage_check`
returns. -/
structure UsageResult where
  allowed : Bool
  count : Int
  limit : Int
deriving Repr, DecidableEq

/-- `tonumber(current[1]) or 0` of the script: the stored count, 0 when the
key or the field is absent. -/
def stored_count (st : Option UsageKeyState) : Int :=
  ((st.bind (fun s => s.count)).getD 0)

/-- The stored `reset_at` field (`current[2]`), `none` when absent. -/
def stored_reset (st : Option UsageKeyState) : Option String :=
  st.bind (fun s => s.reset_at)

/-- The count after the script's expiry check: reset to 0 when a stored
`reset_at` is `≤ current_time` (any stored string is truthy in Lua, the empty
string included). -/
def effective_count (st : Option UsageKeyState) (now : String) : Int :=
  match stored_reset st with
  | some r => if lua_str_le r now then 0 else stored_count st
  | none => stored_count st

/-- `RedisClient.atomic_usage_check`'s Lua script: the returned triple and
the write it performs (`none` when it exits on the limit check; otherwise the
new hash state with its TTL in seconds). -/
def atomic_usage_check (st : Option UsageKeyState) (limit delta : Int)
    (reset_arg now : String) : UsageResult × Option (UsageKeyState × Nat) :=
  let count := effective_count st now
  if limit < count + delta then
    ({ allowed := false, count := count, limit := limit }, none)
  else
    ({ allowed := true, count := count + delta, limit := limit },
     some ({ count := some (count + delta), reset_at := some reset_arg }, 86400))

/-- C3: the usage meter.  For every key state, limit, positive delta (every
invocation has `delta ≥ 1` by the `UsageRequest` schema) and key whose stored
count is non-negative: a non-empty stored `reset_at` that is `≤ now` resets
the count to 0; if the (possibly reset) count plus delta exceeds the limit,
the script returns `allowed=false` with that count and the limit and writes
nothing; otherwise it returns `allowed=true` with `count+delta ≤ limit` and
writes the new count and `reset_at` under a 24-hour TTL, and the written
count is non-negative.  (The whole function is one `EVAL` of a single Lua
script, hence server-side atomic.) -/
theorem c3_usage_meter (st : Option UsageKeyState) (limit delta : Int)
    (reset_arg now : String) (hdelta : 1 ≤ delta)
    (hcount : 0 ≤ stored_count st) :
    (∀ r, stored_reset st = some r → r ≠ "" → lua_str_le r now = true →
      effective_count st now = 0) ∧
    (limit < effective_count st now + delta →
      atomic_usage_check st limit delta reset_arg now =
        ({ allowed := false, count := effective_count st now,
           limit := limit }, none)) ∧
    (effective_count st now + delta ≤ limit →
      atomic_usage_check st limit delta reset_arg now =
        ({ allowed := true, count := effective_count st now + delta,
           limit := limit },
         some ({ count := some (effective_count st now + delta),
                 reset_at := some reset_arg }, 86400)) ∧
      effective_count st now + delta ≤ limit ∧
      0 ≤ effective_count st now + delta) := by
  have heff : 0 ≤ effective_count st now := by
    unfold effective_count
    match stored_reset st with
    | some r =>
      simp only
      split <;> omega
    | none => simpa using hcount
  refine ⟨?_, ?_, ?_⟩
  · intro r hr hne hle
    simp [effective_count, hr, hle]
  · intro hover
    simp only [atomic_usage_check]
    rw [if_pos hover]
  · intro hunder
    refine ⟨?_, hunder, by omega⟩
    simp only [atomic_usage_check]
    rw [if_neg (by omega)]

/-- Witness for C3 at a concrete input: a key holding count 2 with an expired
`reset_at`, limit 3, delta 1 — the count resets to 0 and the write stores
1. -/
theorem c3_usage_meter_witness :
    effective_count (some ⟨some 2, some ("100")⟩) ("250") = 0 ∧
    atomic_usage_check (some ⟨some 2, some ("100")⟩) 3 1 ("400") ("250") =
      ({ allowed := true, count := 1, limit := 3 },
       some ({ count := some 1, reset_at := some ("400") }, 86400)) := by
  have h := c3_usage_meter (some ⟨some 2, some ("100")⟩) 3 1 ("400") ("250")
    (by decide) (by decide)
  refine ⟨h.1 ("100") rfl (by decide) (by decide), ?_⟩
  have h3 := (h.2.2 (by decide)).1
  simpa [h.1 ("100") rfl (by decide) (by decide)] using h3

/-! ## Queue worker retry path and visibility sweeper
(`subscription-service/app/workers/queue_processor.py` and
`app/core/queue_policies.py`).  `json.loads` and Python's builtin `hash` are
library primitives outside the repository: a message's decoded form is passed
alongside its serialized string, and `hash` is a function parameter
`pyHash`. -/

/-- `QueuePolicy` of `app/core/queue_policies.py`.  Every policy in the
source (and the `getattr` fallback) has `backoff_multiplier = 2.0`, so the
multiplier is carried as the integer 2 inside `compute_backoff`. -/
structure QueuePolicy where
  max_retries : Int
  base_delay_seconds : Int
  max_delay_seconds : Int
  jitter_seconds : Int
  lock_ttl_seconds : Int
  visibility_timeout_seconds : Int
deriving Repr, DecidableEq

/-- `DEFAULT_POLICY`. -/
def DEFAULT_POLICY : QueuePolicy :=
  { max_retries := 5, base_delay_seconds := 60, max_delay_seconds := 3600,
    jitter_seconds := 10, lock_ttl_seconds := 180,
    visibility_timeout_seconds := 300 }

/-- `QUEUE_POLICIES` dictionary. -/
def QUEUE_POLICIES (q : String) : Option QueuePolicy :=
  if q = "q:sub:payment_initiation" then some DEFAULT_POLICY
  else if q = "q:sub:trial_payment" then
    some { max_retries := 3, base_delay_seconds := 60,
           max_delay_seconds := 600, jitter_seconds := 5,
           lock_ttl_seconds := 120, visibility_timeout_seconds := 240 }
  else if q = "q:sub:plan_change" then some DEFAULT_POLICY
  else if q = "q:sub:usage_sync" then some DEFAULT_POLICY
  else none

/-- `getattr(QUEUE_POLICIES.get(queue_main, object()), 'max_retries', 5)`. -/
def policy_max_retries (q : String) : Int :=
  ((QUEUE_POLICIES q).map (fun p => p.max_retries)).getD 5

/-- `_compute_backoff`: `min(int(base * mult ** max(0, attempts)), cap)` plus
a uniform jitter draw in `[0, jitter]` (here the parameter `jitterDraw`),
floored at 0.  `mult` is 2.0 throughout, so the power is `2 ^ max 0
attempts`. -/
def compute_backoff (q : String) (attempts : Int) (jitterDraw : Nat) : Int :=
  let base := ((QUEUE_POLICIES q).map (fun p => p.base_delay_seconds)).getD 60
  let cap := ((QUEUE_POLICIES q).map (fun p => p.max_delay_seconds)).getD 3600
  let delay := min (base * 2 ^ (max 0 attempts).toNat) cap
  max 0 (delay + jitterDraw)

/-- A queue envelope as `json.loads` yields it when the message is a JSON
object: the fields the worker and sweeper read (`id`, `attempts`,
`max_attempts`), plus the rest of the object carried opaquely (the clone the
retry path re-enqueues preserves it). -/
structure EnvDict where
  id : Option String
  attempts : Int
  maxAttempts : Option Int
  rest : String
deriving Repr, DecidableEq

/-- Outcome of `json.loads(msg)`: a JSON object, some other JSON value
(rendered as a string), or a parse failure. -/
inductive Decoded where
  | dict (e : EnvDict)
  | value (v : String)
  | failed
deriving Repr, DecidableEq

/-- `int((raw or {}).get("attempts", 0) if isinstance(raw, dict) else 0)` of
`_claim_lock_process` (on parse failure the worker sets `raw = msg`, a
string, hence 0). -/
def worker_attempts : Decoded → Int
  | .dict e => e.attempts
  | .value _ => 0
  | .failed => 0

/-- What a retry re-enqueues on the delayed queue: the cloned envelope, or
the `{"payload": raw, "attempts": n}` wrapper for non-object messages. -/
inductive RetryTarget where
  | envelope (e : EnvDict)
  | wrapped (payload : String) (attempts : Int)
deriving Repr, DecidableEq

/-- Disposition of a claimed message whose handler raised: re-enqueue on the
delayed queue with a delay, or `LPUSH` the original serialized message onto
`<Q>:failed`. -/
inductive FailDisposition where
  | retry (t : RetryTarget) (delaySeconds : Int)
  | deadLetter (originalMsg : String)
deriving Repr, DecidableEq

/-- The retryable-failure path of `_claim_lock_process` (the `except` block):
`attempts_next = attempts + 1` compared against the policy's `max_retries`
(`getattr(QUEUE_POLICIES.get(queue_main, object()), 'max_retries', 5)`), then
either a delayed re-enqueue of the updated envelope or a dead-letter of the
original message.  `d` is `json.loads(msg)`'s outcome, `j` the jitter draw
inside `_compute_backoff`. -/
def handle_retryable_failure (q msg : String) (d : Decoded) (j : Nat) :
    FailDisposition :=
  let attempts_next := worker_attempts d + 1
  if attempts_next ≤ policy_max_retries q then
    match d with
    | .dict e =>
      .retry (.envelope { e with attempts := attempts_next })
        (compute_backoff q attempts_next j)
    | .value v => .retry (.wrapped v attempts_next) (compute_backoff q attempts_next j)
    | .failed => .retry (.wrapped msg attempts_next) (compute_backoff q attempts_next j)
  else .deadLetter msg

/-- The claim's reading of the retry ceiling: the envelope's `max_attempts`
takes precedence over the policy's `max_retries` when present.  Written from
the spec's words, to be compared with what the code computes. -/
def spec_effective_max_retries (q : String) (d : Decoded) : Int :=
  match d with
  | .dict e => e.maxAttempts.getD (policy_max_retries q)
  | _ => policy_max_retries q

/-- C4 counterexample: on `q:sub:trial_payment` (policy `max_retries = 3`), a
message with `attempts = 4` and `max_attempts = 10` has `attempts_next = 5 ≤
10`, so under the claim it would be retried — but the code ignores
`max_attempts` and dead-letters it. -/
theorem c4_max_attempts_counterexample :
    (4 + 1 ≤ spec_effective_max_retries ("q:sub:trial_payment")
      (.dict { id := none, attempts := 4, maxAttempts := some 10,
               rest := "" })) ∧
    handle_retryable_failure ("q:sub:trial_payment") ("m")
      (.dict { id := none, attempts := 4, maxAttempts := some 10, rest := "" })
      0 = .deadLetter ("m") := by
  constructor
  · decide
  · decide

/-- C4 (amended): the effective retry ceiling is always the per-queue
policy's `max_retries` (default 5) — the envelope's `max_attempts` field is
never read: changing it never changes the disposition.  Within the ceiling a
clone of the envelope with `attempts := attempts + 1` goes to the delayed
queue with the policy backoff delay; above it the original message is
dead-lettered. -/
theorem c4_retry_ceiling_amended (q msg : String) (d : Decoded) (j : Nat) :
    (∀ m2, handle_retryable_failure q msg
        (match d with
         | .dict e => .dict { e with maxAttempts := m2 }
         | other => other) j =
      (match handle_retryable_failure q msg d j with
       | .retry (.envelope e) s =>
         .retry (.envelope { e with maxAttempts := m2 }) s
       | other => other)) ∧
    (worker_attempts d + 1 ≤ policy_max_retries q →
      handle_retryable_failure q msg d j =
        (match d with
         | .dict e =>
           .retry (.envelope { e with attempts := worker_attempts d + 1 })
             (compute_backoff q (worker_attempts d + 1) j)
         | .value v =>
           .retry (.wrapped v (worker_attempts d + 1))
             (compute_backoff q (worker_attempts d + 1) j)
         | .failed =>
           .retry (.wrapped msg (worker_attempts d + 1))
             (compute_backoff q (worker_attempts d + 1) j))) ∧
    (policy_max_retries q < worker_attempts d + 1 →
      handle_retryable_failure q msg d j = .deadLetter msg) := by
  refine ⟨?_, ?_, ?_⟩
  · intro m2
    match d with
    | .dict e =>
      simp only [handle_retryable_failure, worker_attempts]
      split
      · rfl
      · rfl
    | .value v =>
      simp only [handle_retryable_failure, worker_attempts]
      split
      · rfl
      · rfl
    | .failed =>
      simp only [handle_retryable_failure, worker_attempts]
      split
      · rfl
      · rfl
  · intro h
    simp only [handle_retryable_failure]
    rw [if_pos h]
  · intro h
    simp only [handle_retryable_failure]
    rw [if_neg (by omega)]

/-- The worker's idempotency-lock key, `f"lock:{queue_main}:{hash(msg)}"` in
`_claim_lock_process`: always built from Python's builtin `hash` of the
serialized message (`pyHash` here), never from the envelope. -/
def worker_message_id (msg : String) (pyHash : String → Int) : String :=
  toString (pyHash msg)

/-- `lock:{Q}:{hash(msg)}` as the claiming worker acquires it. -/
def worker_lock_key (q msg : String) (pyHash : String → Int) : String :=
  "lock:" ++ q ++ ":" ++ worker_message_id msg pyHash

/-- `mid = (raw.get("id") if isinstance(raw, dict) else None) or
str(hash(msg))` in `sweep_processing_queues`: the envelope's `id` when it is
a truthy string (the empty string is falsy and falls through to the hash);
otherwise `str(hash(msg))`.  On parse failure the sweeper sets `raw = {}`,
an object without `id`. -/
def sweeper_message_id (msg : String) (d : Decoded)
    (pyHash : String → Int) : String :=
  match d with
  | .dict e =>
    match e.id with
    | some i => if i = "" then toString (pyHash msg) else i
    | none => toString (pyHash msg)
  | _ => toString (pyHash msg)

/-- `lock_key = f"lock:{main}:{mid}"` as the sweeper checks it. -/
def sweeper_lock_key (q msg : String) (d : Decoded)
    (pyHash : String → Int) : String :=
  "lock:" ++ q ++ ":" ++ sweeper_message_id msg d pyHash

/-- `(raw or {}).get("attempts", 0) ... + 1` of the sweeper: on parse failure
`raw = {}` so the field defaults to 0; for non-object values `isinstance`
fails and the count is 0. -/
def sweeper_attempts_next : Decoded → Int
  | .dict e => e.attempts + 1
  | .value _ => 1
  | .failed => 1

/-- What the sweeper does to one entry of `<Q>:processing`: nothing when the
lock key it computes exists (`keep`), otherwise the orphan path — `LREM` from
processing plus either a delayed re-enqueue of the envelope with the bumped
attempt count (for parse failures `raw` is the empty dict, re-enqueued as an
envelope holding only `attempts`) or an `LPUSH` onto `<Q>:failed`. -/
inductive SweepAction where
  | keep
  | retry (t : RetryTarget) (delaySeconds : Int)
  | deadLetter (msg : String)
deriving Repr, DecidableEq

/-- One iteration of the sweeper's per-message loop in
`sweep_processing_queues`.  `locks` is the set of currently live Redis lock
keys, `j` the jitter draw. -/
def sweep_message (q msg : String) (d : Decoded) (locks : List String)
    (pyHash : String → Int) (j : Nat) : SweepAction :=
  if sweeper_lock_key q msg d pyHash ∈ locks then .keep
  else
    let attempts := sweeper_attempts_next d
    if attempts ≤ policy_max_retries q then
      match d with
      | .dict e =>
        .retry (.envelope { e with attempts := attempts })
          (compute_backoff q attempts j)
      | .failed =>
        .retry (.envelope { id := none, attempts := attempts,
                            maxAttempts := none, rest := "" })
          (compute_backoff q attempts j)
      | .value v =>
        .retry (.wrapped v attempts) (compute_backoff q attempts j)
    else .deadLetter msg

/-- C5 counterexample: a processing entry whose envelope carries
`id = "abc"` while its claiming worker's lock `lock:Q:{hash(msg)}` is live.
The sweeper checks `lock:Q:abc` instead, finds nothing, and sweeps the
live-locked message (here: delayed re-enqueue with `attempts = 1`), so the
sweeper does not leave every worker-locked message untouched.
(`pyHash = fun _ => 42` stands for a run in which `hash(msg) = 42`; the
message is the serialization of `{"id": "abc", "attempts": 0}`.) -/
theorem c5_sweeper_counterexample :
    (worker_lock_key ("q:sub:payment_initiation") ("m1") (fun _ => 42) ∈
      [worker_lock_key ("q:sub:payment_initiation") ("m1") (fun _ => 42)]) ∧
    sweep_message ("q:sub:payment_initiation") ("m1")
      (.dict { id := some ("abc"), attempts := 0, maxAttempts := none,
               rest := "" })
      [worker_lock_key ("q:sub:payment_initiation") ("m1") (fun _ => 42)]
      (fun _ => 42) 0 ≠ .keep := by
  constructor
  · exact List.mem_singleton.mpr rfl
  · decide

/-- C5 (amended): the sweeper leaves a processing entry untouched exactly
when the lock key *it* computes — from the envelope's truthy `id`, else from
`str(hash(msg))` — is live; for an entry without a live key of that form it
removes the entry, bumps `attempts`, and delay-enqueues within the policy
ceiling or dead-letters above it.  Only for messages without a truthy `id`
does the sweeper's key coincide with the worker's `lock:Q:{hash(msg)}`, so
only those live-locked messages are guaranteed untouched. -/
theorem c5_sweeper_amended (q msg : String) (d : Decoded)
    (locks : List String) (pyHash : String → Int) (j : Nat) :
    (sweeper_lock_key q msg d pyHash ∈ locks →
      sweep_message q msg d locks pyHash j = .keep) ∧
    (sweeper_lock_key q msg d pyHash ∉ locks →
      sweep_message q msg d locks pyHash j =
        (if sweeper_attempts_next d ≤ policy_max_retries q then
          match d with
          | .dict e =>
            .retry (.envelope { e with attempts := sweeper_attempts_next d })
              (compute_backoff q (sweeper_attempts_next d) j)
          | .failed =>
            .retry (.envelope { id := none,
                                attempts := sweeper_attempts_next d,
                                maxAttempts := none, rest := "" })
              (compute_backoff q (sweeper_attempts_next d) j)
          | .value v =>
            .retry (.wrapped v (sweeper_attempts_next d))
              (compute_backoff q (sweeper_attempts_next d) j)
        else .deadLetter msg)) ∧
    ((∀ e, d = .dict e → e.id = none ∨ e.id = some ("")) →
      sweeper_lock_key q msg d pyHash = worker_lock_key q msg pyHash) := by
  refine ⟨?_, ?_, ?_⟩
  · intro hl
    simp only [sweep_message]
    rw [if_pos hl]
  · intro hl
    simp only [sweep_message]
    rw [if_neg hl]
  · intro hid
    match d with
    | .dict e =>
      rcases hid e rfl with h | h <;>
        simp [sweeper_lock_key, sweeper_message_id, worker_lock_key,
          worker_message_id, h]
    | .value v => rfl
    | .failed => rfl

/-- C6 counterexample: for the serialized message `"m1"` whose envelope
carries `id = "abc"`, in a run with `hash("m1") = 42`, the worker's lock key
uses message id `"42"` while the sweeper uses `"abc"`: the two ends do not
compute the same message id, and neither is a SHA-256 content hash of the
message. -/
theorem c6_message_id_counterexample :
    worker_message_id ("m1") (fun _ => 42) = "42" ∧
    sweeper_message_id ("m1")
      (.dict { id := some ("abc"), attempts := 0, maxAttempts := none,
               rest := "" }) (fun _ => 42) = "abc" ∧
    worker_message_id ("m1") (fun _ => 42) ≠
      sweeper_message_id ("m1")
        (.dict { id := some ("abc"), attempts := 0, maxAttempts := none,
                 rest := "" }) (fun _ => 42) := by
  refine ⟨rfl, by decide, by decide⟩

/-- C6 (amended): the worker always derives the lock key's message id as
`str(hash(msg))` — Python's builtin, per-process-seeded `hash`, not a SHA-256
content hash, and never the envelope's `id`; the sweeper uses the envelope's
`id` when it is present and non-empty and `str(hash(msg))` otherwise.  The
two ends therefore agree exactly on messages without a truthy `id` field. -/
theorem c6_message_id_amended (msg : String) (d : Decoded)
    (pyHash : String → Int) :
    worker_message_id msg pyHash = toString (pyHash msg) ∧
    (∀ e i, d = .dict e → e.id = some i → i ≠ "" →
      sweeper_message_id msg d pyHash = i) ∧
    ((∀ e, d = .dict e → e.id = none ∨ e.id = some ("")) →
      sweeper_message_id msg d pyHash = worker_message_id msg pyHash) := by
  refine ⟨rfl, ?_, ?_⟩
  · intro e i hd hi hne
    subst hd
    simp [sweeper_message_id, hi, hne]
  · intro hid
    match d with
    | .dict e =>
      rcases hid e rfl with h | h <;>
        simp [sweeper_message_id, worker_message_id, h]
    | .value v => rfl
    | .failed => rfl

/-! ## Outbound webhook client (`payment-service/app/core/webhook_client.py`,
`WebhookClient.send_webhook`).  The loop `for attempt in range(retries + 1)`
is modelled with the per-attempt transport outcome supplied as a function of
the attempt index.  The crucial control-flow fact embedded here: on a 4xx the
code calls `response.raise_for_status()`, whose `httpx.HTTPStatusError` is a
subclass of `httpx.HTTPError` and is therefore caught by the generic `except
httpx.HTTPError` handler below it, which sleeps `2 ** attempt` and continues
— i.e. 4xx responses take the same retry path as 5xx, timeouts and transport
errors, despite the inline comment "Don't retry for client errors (4xx)". -/

/-- What one POST attempt produces: an HTTP response (with the parsed JSON
body when `response.json()` succeeds, else the raw text), an
`httpx.TimeoutException`, another `httpx.HTTPError` (transport error), or any
other exception. -/
inductive AttemptOutcome where
  | response (code : Nat) (parsedBody : Option String) (text : String)
  | timeout
  | transportFailure
  | otherFailure
deriving Repr, DecidableEq

/-- The value a successful delivery returns: the parsed JSON body, or the
`{"status": "success", "raw_response": text}` marker when the body is not
JSON. -/
inductive SuccessBody where
  | parsed (s : String)
  | marker (rawResponse : String)
deriving Repr, DecidableEq

/-- The exception `send_webhook` ends with when all retries are exhausted. -/
inductive ErrKind where
  | statusError (code : Nat)
  | timeoutError
  | transportError
  | otherError
  | genericHTTPError
deriving Repr, DecidableEq

/-- Result of `send_webhook`: a returned body or a propagated exception. -/
inductive SendResult where
  | delivered (body : SuccessBody)
  | raised (e : ErrKind)
deriving Repr, DecidableEq

/-- The attempt loop of `send_webhook`.  `fuel` counts the attempts still
permitted (initially `retries + 1`), `attempt` the 0-based index, `last` the
`last_exception` variable.  Returns the result together with the list of
sleeps performed (`2 ** attempt` seconds each). -/
def send_loop (outcomes : Nat → AttemptOutcome) (retries : Nat) :
    Nat → Nat → Option ErrKind → SendResult × List Nat
  | 0, _, last => (.raised (last.getD .genericHTTPError), [])
  | fuel + 1, attempt, _last =>
    let retryWith := fun (e : ErrKind) =>
      if attempt < retries then
        let r := send_loop outcomes retries fuel (attempt + 1) (some e)
        (r.1, 2 ^ attempt :: r.2)
      else (.raised e, [])
    match outcomes attempt with
    | .response code parsedBody text =>
      if code < 400 then
        match parsedBody with
        | some j => (.delivered (.parsed j), [])
        | none => (.delivered (.marker text), [])
      else
        -- 4xx: raise_for_status's HTTPStatusError is caught by the
        -- `except httpx.HTTPError` handler; 5xx: explicit retry branch,
        -- with raise_for_status on the final attempt.  Both retry.
        retryWith (.statusError code)
    | .timeout => retryWith .timeoutError
    | .transportFailure => retryWith .transportError
    | .otherFailure => retryWith .otherError

/-- `WebhookClient.send_webhook` with retry budget `retries`: result and the
sleeps performed between attempts. -/
def send_webhook (retries : Nat) (outcomes : Nat → AttemptOutcome) :
    SendResult × List Nat :=
  send_loop outcomes retries (retries + 1) 0 none

/-- C8 evaluation at the failing input, plus the behaviours the claim gets
right.  With retry budget 3 and every attempt answering 404, the client
performs four attempts with sleeps of 1, 2 and 4 seconds and only then
propagates the status error — the claim (and the code's own comment) says a
4xx is never retried and raises immediately.  A 200 with a JSON body returns
it at once with no sleeps; persistent timeouts retry with the exponential
sleeps and propagate the last timeout. -/
theorem c8_client_4xx_retry_eval :
    send_webhook 3 (fun _ => .response 404 none ("not found")) =
      (.raised (.statusError 404), [1, 2, 4]) ∧
    send_webhook 3 (fun _ => .response 200 (some ("{}")) "") =
      (.delivered (.parsed ("{}")), []) ∧
    send_webhook 2 (fun _ => .timeout) =
      (.raised .timeoutError, [1, 2]) := by
  refine ⟨?_, ?_, ?_⟩ <;> decide

/-! ## Payment service transaction lifecycle
(`payment-service/app/services/payment_service.py`,
`repositories/transaction_repository.py`, `services/gateway_service.py`).
`TransactionRepository.update_status` writes whatever status it is given; the
status changes a transaction can undergo are therefore exactly the ones the
service performs.  `process_payment` creates the row with `pending`, moves it
to `processing`, then to the gateway's status (`success` or `failed`).
`initiate_refund` guards on `transaction.is_successful` and then evaluates
`gateway_response.status` — but `MockGatewayService.initiate_refund` returns
a plain `dict`, and attribute access on a Python `dict` for a key name raises
`AttributeError`, so the `except` branch rolls back and returns `False`
before any status update; `_process_trial_refund` deliberately never updates
the original transaction.  No other code path writes a transaction
status. -/

/-- Transaction row (the fields the refund path reads). -/
structure Transaction where
  id : String
  status : String
  amount : Int
deriving Repr, DecidableEq

/-- Terminal transaction statuses per the claim: `success`, `failed`, or any
`refund_*` status (`refund_initiated`, `refund_complete`, `refund_error` in
the model's docstring). -/
def terminal_status (s : String) : Bool :=
  s = "success" || s = "failed" || s.data.take 7 = ("refund_").data

/-- `MockGatewayService.process_payment`'s status: the fail card always
fails; otherwise the success card or a favourable random draw succeeds. -/
def mock_process_payment_status (card_number success_card : String)
    (random_success : Bool) : String :=
  if card_number = "4000000000000002" then ("failed")
  else if card_number = success_card ∨ random_success then ("success")
  else ("failed")

/-- The chronological statuses `PaymentService.process_payment` writes for
one transaction: created `pending`, updated to `processing`, then to the
gateway status. -/
def payment_status_trace (gateway_status : String) : List String :=
  ["pending", "processing", gateway_status]

/-- A Python runtime value, as far as the refund path needs it: attribute
access (`value.name`) finds data attributes only on objects; on a `dict` the
items are reachable by subscript, not attribute, so `.status` on a dict
raises `AttributeError` (`none` here). -/
inductive PyValue where
  | pystr (s : String)
  | pyint (n : Int)
  | pydict (entries : List (String × PyValue))
  | pyobj (attrs : List (String × PyValue))
deriving Repr

/-- `getattr(v, name)` for a data attribute: `none` models the raised
`AttributeError`. -/
def pyGetAttr (v : PyValue) (name : String) : Option PyValue :=
  match v with
  | .pyobj attrs => (attrs.find? (fun kv => kv.1 == name)).map (fun kv => kv.2)
  | _ => none

/-- `MockGatewayService.initiate_refund`: returns a plain dict (not a
response object). -/
def gateway_initiate_refund (refund_reference txid : String) (amount : Int)
    (reason : String) : PyValue :=
  .pydict [("refund_reference", .pystr refund_reference),
           ("status", .pystr ("initiated")),
           ("transaction_id", .pystr txid),
           ("amount", .pyint amount),
           ("reason", .pystr reason)]

/-- `PaymentService.initiate_refund`: returns whether the refund completed
and the status it updates the transaction to (`none` when no update
happens — missing or non-successful transaction, or the `AttributeError` on
`gateway_response.status` that sends the code into its `except` branch,
which rolls back and returns `False`). -/
def initiate_refund (tx : Option Transaction) (refund_reference : String) :
    Bool × Option String :=
  match tx with
  | none => (false, none)
  | some t =>
    if t.status = "success" then
      match pyGetAttr
          (gateway_initiate_refund refund_reference t.id t.amount
            ("manual_refund")) ("status") with
      | none => (false, none)
      | some (.pystr st) => (decide (st = "refund_complete"), some st)
      | some _ => (false, none)
    else (false, none)

/-- C9: transaction terminal statuses are reached at most once and never
reverted.  For every gateway input, the gateway status is `success` or
`failed`; in the status sequence `process_payment` writes, no terminal
status is ever followed by another write (terminal statuses appear only in
the final position) and each terminal status appears at most once; and
`initiate_refund` — the only code path that could move a transaction out of
`success` — never performs a status update at all (its gateway returns a
`dict`, so `gateway_response.status` raises and the method rolls back). -/
theorem c9_transaction_terminal (card_number success_card : String)
    (random_success : Bool) :
    (mock_process_payment_status card_number success_card random_success =
        "success" ∨
      mock_process_payment_status card_number success_card random_success =
        "failed") ∧
    (∀ n s, n + 1 < (payment_status_trace
        (mock_process_payment_status card_number success_card
          random_success)).length →
      (payment_status_trace
        (mock_process_payment_status card_number success_card
          random_success)).get? n = some s →
      terminal_status s = false) ∧
    (∀ st, terminal_status st = true →
      (payment_status_trace
        (mock_process_payment_status card_number success_card
          random_success)).count st ≤ 1) ∧
    (∀ tx refund_reference,
      (initiate_refund tx refund_reference).2 = none ∧
      (initiate_refund tx refund_reference).1 = false) := by
  refine ⟨?_, ?_, ?_, ?_⟩
  · simp only [mock_process_payment_status]
    split
    · right; rfl
    · split
      · left; rfl
      · right; rfl
  · intro n s hn hs
    simp only [payment_status_trace, List.length_cons, List.length_nil] at hn
    have h2 : n = 0 ∨ n = 1 := by omega
    rcases h2 with rfl | rfl
    · simp only [payment_status_trace, List.get?_cons_zero,
        Option.some.injEq] at hs
      subst hs
      decide
    · simp only [payment_status_trace, List.get?_cons_succ,
        List.get?_cons_zero, Option.some.injEq] at hs
      subst hs
      decide
  · intro st hst
    have hne1 : ¬ (("pending" : String) = st) := by
      intro h
      rw [← h] at hst
      exact absurd hst (by decide)
    have hne2 : ¬ (("processing" : String) = st) := by
      intro h
      rw [← h] at hst
      exact absurd hst (by decide)
    simp only [payment_status_trace, List.count_cons, List.count_nil,
      beq_iff_eq, hne1, hne2, if_false, ite_false]
    split <;> omega
  · intro tx refund_reference
    match tx with
    | none => exact ⟨rfl, rfl⟩
    | some t =>
      simp only [initiate_refund]
      split
      · exact ⟨rfl, rfl⟩
      · exact ⟨rfl, rfl⟩

/-! ## Webhook inbox and synchronous processing
(`subscription-service/app/services/webhook_service.py`,
`repositories/webhook_repository.py`).  The relational state the service
touches is a `Store`: the `payment_webhook_requests` inbox (unique
`event_id`), the subscriptions, the renewal-plan lookup of
`plan_repo.get_renewal_plan` (trial plan id → renewal plan) and the
append-only `subscription_events` table.  `process_payment_webhook` commits
on success and rolls the session back when `process_webhook_event` returns
`False` (the raised `RuntimeError`), so the error outcome leaves the incoming
store unchanged. -/

/-- The payload of `/v1/webhooks/payment` (`WebhookPayload` schema), after
`serialize_payload`. -/
structure WebhookPayload where
  event_id : String
  transaction_id : Nat
  subscription_id : Nat
  status : String
  amount : Int
deriving Repr, DecidableEq

/-- One `payment_webhook_requests` row. -/
structure InboxRow where
  rid : Nat
  event_id : String
  payload : WebhookPayload
  processed : Bool
deriving Repr, DecidableEq

/-- The relational state the webhook service reads and writes. -/
structure Store where
  inbox : List InboxRow
  subs : List Subscription
  renewals : List (Nat × Plan)
  events : List SubscriptionEvent
  next_row_id : Nat
deriving Repr, DecidableEq

/-- `WebhookRepository.get_by_event_id` (the inbox has a unique index on
`event_id`). -/
def find_inbox (s : Store) (eid : String) : Option InboxRow :=
  s.inbox.find? (fun r => r.event_id == eid)

/-- `SubscriptionRepository.get_with_relationships`. -/
def find_subscription (s : Store) (sid : Nat) : Option Subscription :=
  s.subs.find? (fun x => x.id == sid)

/-- `PlanRepository.get_renewal_plan`, as the store's trial-plan →
renewal-plan table. -/
def get_renewal_plan (s : Store) (plan_id : Nat) : Option Plan :=
  (s.renewals.find? (fun kv => kv.1 == plan_id)).map (fun kv => kv.2)

/-- Persist an updated subscription row (update by primary key). -/
def update_subscription_row (s : Store) (sub : Subscription) : Store :=
  { s with subs := s.subs.map (fun x => if x.id == sub.id then sub else x) }

/-- `WebhookRepository.mark_processed` applied to the row
`get_by_event_id(event_id)` found, as `process_webhook_event` does. -/
def mark_inbox_processed (s : Store) (eid : String) : Store :=
  match find_inbox s eid with
  | some w =>
    { s with inbox := s.inbox.map (fun r =>
        if r.rid == w.rid then { r with processed := true } else r) }
  | none => s

/-- `WebhookService.process_webhook_event`: look up the subscription (False
when missing), dispatch on the payment status (False when neither
`"success"` nor `"failed"`), apply the handler, mark the inbox row processed
and commit. -/
def process_webhook_event (eid : String) (p : WebhookPayload) (s : Store) :
    Bool × Store :=
  match find_subscription s p.subscription_id with
  | none => (false, s)
  | some sub =>
    if p.status = "success" then
      let hr := handle_payment_success sub (get_renewal_plan s sub.plan.id)
      let s1 := update_subscription_row s hr.1
      let s2 := { s1 with events := s1.events ++ hr.2 }
      (true, mark_inbox_processed s2 eid)
    else if p.status = "failed" then
      let hr := handle_payment_failure sub
      let s1 := update_subscription_row s hr.1
      let s2 := { s1 with events := s1.events ++ hr.2 }
      (true, mark_inbox_processed s2 eid)
    else (false, s)

/-- `WebhookRepository.create_webhook_request`: new row, `processed=false`. -/
def insert_inbox (s : Store) (p : WebhookPayload) : Store :=
  { s with
    inbox := { rid := s.next_row_id, event_id := p.event_id, payload := p,
               processed := false } :: s.inbox,
    next_row_id := s.next_row_id + 1 }

/-- Update of an existing unprocessed row's payload. -/
def update_inbox_payload (s : Store) (rid : Nat) (p : WebhookPayload) :
    Store :=
  { s with inbox := s.inbox.map (fun r =>
      if r.rid == rid then { r with payload := p } else r) }

/-- `WebhookService.process_payment_webhook`: the duplicate short-circuit,
the insert-or-update of the inbox row, the synchronous call to
`process_webhook_event`, and the commit/rollback.  `"error"` stands for the
raised `RuntimeError` (the session is rolled back to the incoming store). -/
def process_payment_webhook (p : WebhookPayload) (s : Store) :
    String × Store :=
  match find_inbox s p.event_id with
  | some w =>
    if w.processed then ("duplicate", s)
    else
      match process_webhook_event p.event_id p
          (update_inbox_payload s w.rid p) with
      | (true, s2) => ("processed", s2)
      | (false, _) => ("error", s)
  | none =>
    match process_webhook_event p.event_id p (insert_inbox s p) with
    | (true, s2) => ("processed", s2)
    | (false, _) => ("error", s)

/-- Inbox rows carrying a given `event_id`. -/
def count_inbox (s : Store) (eid : String) : Nat :=
  (s.inbox.filter (fun r => r.event_id == eid)).length

/-- Filtering after a filter-invariant map keeps the count. -/
theorem filter_length_map_of_pred_eq {α : Type} (f : α → α)
    (pred : α → Bool) (l : List α) (h : ∀ a, pred (f a) = pred a) :
    (List.filter pred (l.map f)).length = (List.filter pred l).length := by
  induction l with
  | nil => rfl
  | cons a t ih =>
    simp only [List.map_cons, List.filter_cons, h a]
    split <;> simp [ih]


/-- The row `create_webhook_request` inserts for a payload. -/
def inserted_row (s : Store) (p : WebhookPayload) : InboxRow :=
  { rid := s.next_row_id, event_id := p.event_id, payload := p,
    processed := false }

/-- The same row once `mark_processed` has run. -/
def marked_row (s : Store) (p : WebhookPayload) : InboxRow :=
  { rid := s.next_row_id, event_id := p.event_id, payload := p,
    processed := true }

/-- `mark_inbox_processed`'s per-row update for a found row id. -/
def mark_fn (wrid : Nat) (r : InboxRow) : InboxRow :=
  if r.rid == wrid then { r with processed := true } else r

/-- The store after the fresh-event success path of `process_webhook_event`
has updated the subscription and appended its events, before the inbox row
is marked: used to factor the C7 computation. -/
def committed_store (s : Store) (p : WebhookPayload) (sub : Subscription) :
    Store :=
  let t := insert_inbox s p
  let hr := handle_payment_success sub (get_renewal_plan t sub.plan.id)
  let s1 := update_subscription_row t hr.1
  { s1 with events := s1.events ++ hr.2 }

/-- Marking an inbox row processed never changes the number of rows carrying
any `event_id`. -/
theorem count_inbox_mark (s : Store) (eid eid2 : String) :
    count_inbox (mark_inbox_processed s eid) eid2 = count_inbox s eid2 := by
  cases hfi : find_inbox s eid with
  | none => simp [mark_inbox_processed, hfi]
  | some w =>
    simp only [mark_inbox_processed, hfi, count_inbox]
    exact filter_length_map_of_pred_eq _ _ _
      (fun a => by cases h : a.rid == w.rid <;> simp [h])

/-- C7: duplicate suppression by the inbox.  (i) Whenever the event's id
already has an inbox row with `processed = true`, `process_payment_webhook`
returns `"duplicate"` and the store — inbox, subscriptions, events — is
exactly the incoming one.  (ii) Submitting a webhook for a fresh event id on
an existing subscription yields `"processed"` with exactly one inbox row for
that event id, and submitting the identical webhook again yields
`"duplicate"` with the store unchanged and still exactly that one row. -/
theorem c7_duplicate_inbox (p : WebhookPayload) (s : Store) :
    (∀ w, find_inbox s p.event_id = some w → w.processed = true →
      process_payment_webhook p s = (("duplicate"), s)) ∧
    (∀ sub, find_inbox s p.event_id = none →
      find_subscription s p.subscription_id = some sub →
      p.status = "success" →
      (process_payment_webhook p s).1 = "processed" ∧
      count_inbox (process_payment_webhook p s).2 p.event_id = 1 ∧
      process_payment_webhook p (process_payment_webhook p s).2 =
        (("duplicate"), (process_payment_webhook p s).2)) := by
  constructor
  · intro w hw hproc
    simp only [process_payment_webhook, hw, hproc, if_true]
  · intro sub hnone hsub hst
    have hpred : ((inserted_row s p).event_id == p.event_id) = true := by
      simp [inserted_row]
    have hsub1 : find_subscription (insert_inbox s p) p.subscription_id =
        some sub := hsub
    have hrun : process_payment_webhook p s =
        ("processed",
          mark_inbox_processed (committed_store s p sub) p.event_id) := by
      simp only [process_payment_webhook, hnone, process_webhook_event,
        hsub1, hst, if_true, String.reduceEq, ite_true, committed_store]
    have hmid_inbox : (committed_store s p sub).inbox =
        inserted_row s p :: s.inbox := rfl
    have hfi_mid : find_inbox (committed_store s p sub) p.event_id =
        some (inserted_row s p) := by
      unfold find_inbox
      rw [hmid_inbox]
      exact List.find?_cons_of_pos _ hpred
    have hmark_inbox :
        (mark_inbox_processed (committed_store s p sub) p.event_id).inbox =
          marked_row s p :: s.inbox.map (mark_fn s.next_row_id) := by
      simp only [mark_inbox_processed, hfi_mid]
      rw [hmid_inbox]
      simp only [List.map_cons]
      refine congrArg₂ List.cons ?_ ?_
      · simp [inserted_row, marked_row]
      · rfl
    have hflt : s.inbox.filter (fun r => r.event_id == p.event_id) = [] := by
      rw [List.filter_eq_nil_iff]
      intro a ha
      simp only [find_inbox] at hnone
      exact List.find?_eq_none.mp hnone a ha
    refine ⟨by rw [hrun], ?_, ?_⟩
    · rw [hrun]
      dsimp only
      rw [count_inbox_mark]
      unfold count_inbox
      rw [hmid_inbox]
      simp only [List.filter_cons, hpred, if_true, hflt, List.length_cons,
        List.length_nil]
    · rw [hrun]
      dsimp only
      have hfi3 : find_inbox
          (mark_inbox_processed (committed_store s p sub) p.event_id)
          p.event_id = some (marked_row s p) := by
        unfold find_inbox
        rw [hmark_inbox]
        exact List.find?_cons_of_pos _ (by simp [marked_row])
      simp only [process_payment_webhook, hfi3, marked_row, if_true]

/-- C10: guard paths of `process_webhook_event`.  When the payload's
subscription id matches no subscription, or its status is neither
`"success"` nor `"failed"`, the call returns `False` with the store exactly
as it was — no subscription change, no `SubscriptionEvent` row, no inbox row
marked processed; and the synchronous `process_payment_webhook` around it
then raises (result `"error"`), rolling the session back to the incoming
store, whether the event id was fresh or had an unprocessed row. -/
theorem c10_webhook_event_guards (eid : String) (p : WebhookPayload)
    (s : Store) :
    (find_subscription s p.subscription_id = none →
      process_webhook_event eid p s = (false, s)) ∧
    (p.status ≠ "success" → p.status ≠ "failed" →
      process_webhook_event eid p s = (false, s)) ∧
    (find_inbox s p.event_id = none →
      (find_subscription s p.subscription_id = none ∨
        (p.status ≠ "success" ∧ p.status ≠ "failed")) →
      process_payment_webhook p s = (("error"), s)) ∧
    (∀ w, find_inbox s p.event_id = some w → w.processed = false →
      (find_subscription s p.subscription_id = none ∨
        (p.status ≠ "success" ∧ p.status ≠ "failed")) →
      process_payment_webhook p s = (("error"), s)) := by
  refine ⟨?_, ?_, ?_, ?_⟩
  · intro h
    simp only [process_webhook_event, h]
  · intro h1 h2
    cases hfs : find_subscription s p.subscription_id with
    | none => simp only [process_webhook_event, hfs]
    | some sub =>
      simp only [process_webhook_event, hfs, if_neg h1, if_neg h2]
  · intro hnone hbad
    have hrun : process_webhook_event p.event_id p (insert_inbox s p) =
        (false, insert_inbox s p) := by
      rcases hbad with h | ⟨h1, h2⟩
      · have h' : find_subscription (insert_inbox s p) p.subscription_id =
            none := h
        simp only [process_webhook_event, h']
      · cases hfs : find_subscription (insert_inbox s p)
            p.subscription_id with
        | none => simp only [process_webhook_event, hfs]
        | some sub =>
          simp only [process_webhook_event, hfs, if_neg h1, if_neg h2]
    simp only [process_payment_webhook, hnone, hrun]
  · intro w hw hw2 hbad
    have hrun : process_webhook_event p.event_id p
        (update_inbox_payload s w.rid p) =
        (false, update_inbox_payload s w.rid p) := by
      rcases hbad with h | ⟨h1, h2⟩
      · have h' : find_subscription (update_inbox_payload s w.rid p)
            p.subscription_id = none := h
        simp only [process_webhook_event, h']
      · cases hfs : find_subscription (update_inbox_payload s w.rid p)
            p.subscription_id with
        | none => simp only [process_webhook_event, hfs]
        | some sub =>
          simp only [process_webhook_event, hfs, if_neg h1, if_neg h2]
    simp only [process_payment_webhook, hw, hw2, if_false, Bool.false_eq_true,
      ite_false, hrun]
